import Mathlib

/-!
Verification of the cp-chain rollup driver (cp-node/rollup/driver/state.go,
driver.go) against its natural-language specification.

The Go code is shallowly embedded: pure decision logic becomes Lean
functions, channel/loop interactions become explicit state passing or
action traces, and Go's fixed-width unsigned arithmetic is modelled as
Nat/Int with explicit reduction modulo 2^64 where the code can wrap.
-/

/-- Block identifier: hash and number (eth.BlockID; hashes are modelled as
naturals). Modelled from the spec: the eth types are external to the
driver package; per §3, a block ID is the pair (hash, number). -/
structure BlockID where
  hash : Nat
  number : Nat
deriving DecidableEq, Repr

/-- L2 block reference (eth.L2BlockRef). Modelled from the spec §3:
`{hash, number, parentHash, timestamp}` plus `{baseLayerOrigin,
sequenceNumber}` for local refs. Equality is field-wise, matching Go's
struct comparison `end == (eth.L2BlockRef{})`. -/
structure L2BlockRef where
  hash : Nat
  number : Nat
  parentHash : Nat
  time : Nat
  l1Origin : BlockID
  sequenceNumber : Nat
deriving DecidableEq, Repr

/-- The zero value `eth.L2BlockRef{}` used by the gap check and the
open-ended range request. -/
def L2BlockRef.zero : L2BlockRef :=
  { hash := 0, number := 0, parentHash := 0, time := 0
    l1Origin := { hash := 0, number := 0 }, sequenceNumber := 0 }

/-- `ref.ID()`: the (hash, number) pair of a block reference. -/
def L2BlockRef.id (r : L2BlockRef) : BlockID :=
  { hash := r.hash, number := r.number }

/-- Sync mode (cp-node/rollup/sync): the driver branches on
`sync.CLSync` versus `sync.ELSync`. -/
inductive SyncMode where
  | clSync
  | elSync
deriving DecidableEq, Repr

/-- Events emitted into the event bus by the driver code under scrutiny.
Payload-carrying fields that do not affect the claims are omitted. -/
inductive BusEvent where
  | stepReq
  | stepAttempt
  | resetStepBackoff
  | sequencerAction
  | receivedUnsafePayload
  | finalizeL1
  | resetEngineRequest
  | confirmPipelineReset
deriving DecidableEq, Repr

/-- Embeds `Driver.checkForGapInUnsafeQueue` (state.go:551-563).
`start` is `Engine.UnsafeL2Head()`, `lowestQueued` is
`CLSync.LowestQueuedUnsafeBlock()`. The result is the alt-sync range
request issued, if any: `some (a, b)` models `altSync.RequestL2Range(ctx,
a, b)`, where a zero `b` is the open-ended request. -/
def checkForGapInUnsafeQueue (start lowestQueued : L2BlockRef) :
    Option (L2BlockRef × L2BlockRef) :=
  if lowestQueued = L2BlockRef.zero then
    some (start, L2BlockRef.zero)
  else if lowestQueued.number > start.number + 1 then
    some (start, lowestQueued)
  else
    none

/-- Concrete unsafe head for the C1 counterexample. -/
def gapCexStart : L2BlockRef :=
  { hash := 1, number := 5, parentHash := 0, time := 0
    l1Origin := { hash := 0, number := 0 }, sequenceNumber := 0 }

/-- Concrete lowest-queued ref for the C1 counterexample: non-zero, with
number 3 ≤ unsafe head number 5, so the code issues no request although
3 ≠ 5 + 1. -/
def gapCexQueued : L2BlockRef :=
  { hash := 2, number := 3, parentHash := 0, time := 0
    l1Origin := { hash := 0, number := 0 }, sequenceNumber := 0 }

/-- Claim C1, as stated, is false: it says that whenever the queue is
non-empty and `lowestQueued.number ≠ unsafeHead.number + 1` the driver
requests the missing range, but at `unsafeHead.number = 5`,
`lowestQueued.number = 3` (non-zero ref) the code issues no request. -/
theorem C1_counterexample :
    gapCexQueued ≠ L2BlockRef.zero ∧
    gapCexQueued.number ≠ gapCexStart.number + 1 ∧
    checkForGapInUnsafeQueue gapCexStart gapCexQueued = none := by
  decide

/-- Claim C1 (amended): the gap check issues the open-ended request when
the queue is empty (zero ref); with a non-empty queue it issues no
request when `lowestQueued.number ≤ unsafeHead.number + 1`, and requests
`[unsafeHead, lowestQueued)` when `lowestQueued.number >
unsafeHead.number + 1`. -/
theorem C1_gap_detection (s e : L2BlockRef) :
    (e = L2BlockRef.zero →
      checkForGapInUnsafeQueue s e = some (s, L2BlockRef.zero)) ∧
    (e ≠ L2BlockRef.zero → e.number ≤ s.number + 1 →
      checkForGapInUnsafeQueue s e = none) ∧
    (e ≠ L2BlockRef.zero → s.number + 1 < e.number →
      checkForGapInUnsafeQueue s e = some (s, e)) := by
  refine ⟨fun h => ?_, fun h hle => ?_, fun h hlt => ?_⟩
  · simp [checkForGapInUnsafeQueue, h]
  · simp [checkForGapInUnsafeQueue, h]
    omega
  · simp [checkForGapInUnsafeQueue, h, hlt]

/-- Witness for C1_gap_detection at a concrete state: an empty queue
yields the open-ended request. -/
theorem C1_gap_detection_witness :
    checkForGapInUnsafeQueue gapCexStart L2BlockRef.zero =
      some (gapCexStart, L2BlockRef.zero) :=
  (C1_gap_detection gapCexStart L2BlockRef.zero).1 rfl

/-- Embeds `SyncDeriver.onResetEvent` (state.go:410-420): the list of
events it emits, in order. In managed mode it only logs and returns;
otherwise it emits `StepReqEvent` then `engine.ResetEngineRequestEvent`. -/
def onResetEvent (managedMode : Bool) : List BusEvent :=
  if managedMode then []
  else [BusEvent.stepReq, BusEvent.resetEngineRequest]

/-- Claim C4: with managed mode enabled the reset handler emits no
events; with it disabled it emits a StepReqEvent and a
ResetEngineRequestEvent. -/
theorem C4_reset_event_policy :
    onResetEvent true = [] ∧
    onResetEvent false = [BusEvent.stepReq, BusEvent.resetEngineRequest] := by
  decide

/-- Outcome behavior of the safe-head listener (rollup.SafeHeadListener)
during `onEngineConfirmedReset`: whether it is enabled, and whether the
`SafeHeadReset` and `SafeHeadUpdated` calls succeed. -/
structure SafeHeadListenerBehavior where
  enabled : Bool
  safeHeadResetOk : Bool
  safeHeadUpdatedOk : Bool
deriving DecidableEq, Repr

/-- Embeds `SyncDeriver.onEngineConfirmedReset` (state.go:385-408): the
events it emits. `notifs = none` models a nil `SafeHeadNotifs`;
`genesisL2` is `Config.Genesis.L2`; `crossSafe` is `x.CrossSafe`. The
code returns early (emitting nothing) when `SafeHeadReset` fails, or
when the listener is enabled, the cross-safe head is the L2 genesis,
and the follow-up `SafeHeadUpdated` fails; otherwise it emits
`ConfirmPipelineResetEvent`. -/
def onEngineConfirmedReset (notifs : Option SafeHeadListenerBehavior)
    (genesisL2 : BlockID) (crossSafe : L2BlockRef) : List BusEvent :=
  match notifs with
  | some n =>
    if n.safeHeadResetOk = false then []
    else if n.enabled = true ∧ crossSafe.id = genesisL2 then
      if n.safeHeadUpdatedOk = false then []
      else [BusEvent.confirmPipelineReset]
    else [BusEvent.confirmPipelineReset]
  | none => [BusEvent.confirmPipelineReset]

/-- Claim C5: with a safe-head listener present, ConfirmPipelineResetEvent
is emitted exactly once iff SafeHeadReset succeeds and, when the
cross-safe head is the L2 genesis and the listener is enabled, the
follow-up SafeHeadUpdated also succeeds; when any of these listener
calls fails, nothing is emitted at all. -/
theorem C5_confirm_pipeline_reset (n : SafeHeadListenerBehavior)
    (g : BlockID) (c : L2BlockRef) :
    ((onEngineConfirmedReset (some n) g c).count BusEvent.confirmPipelineReset = 1 ↔
      (n.safeHeadResetOk = true ∧
        ((n.enabled = true ∧ c.id = g) → n.safeHeadUpdatedOk = true))) ∧
    (¬(n.safeHeadResetOk = true ∧
        ((n.enabled = true ∧ c.id = g) → n.safeHeadUpdatedOk = true)) →
      onEngineConfirmedReset (some n) g c = []) := by
  rcases n with ⟨e, r, u⟩
  by_cases hg : c.id = g <;>
    cases e <;> cases r <;> cases u <;>
      simp [onEngineConfirmedReset, hg]

/-- Witness for C5_confirm_pipeline_reset: a listener whose
SafeHeadReset call fails leads to no emitted events. -/
theorem C5_confirm_pipeline_reset_witness :
    onEngineConfirmedReset
      (some { enabled := true, safeHeadResetOk := false, safeHeadUpdatedOk := true })
      { hash := 0, number := 0 } L2BlockRef.zero = [] :=
  (C5_confirm_pipeline_reset
      { enabled := true, safeHeadResetOk := false, safeHeadUpdatedOk := true }
      { hash := 0, number := 0 } L2BlockRef.zero).2 (by decide)

/-- What the `unsafeL2Payloads` case of `Driver.eventLoop`
(state.go:263-283) does with one received envelope. -/
inductive PayloadAction where
  | queueForCLSync
  | insertForELSync
  | drop
deriving DecidableEq, Repr

/-- Embeds the `unsafeL2Payloads` case of `Driver.eventLoop`
(state.go:263-283). `engineSyncing` is `Engine.IsEngineSyncing()`;
`refOk` is whether `derive.PayloadToBlockRef` succeeded; `refNumber` is
the payload's block number; `unsafeHeadNumber` is
`Engine.UnsafeL2Head().Number`. The CL path (CLSync mode, or engine not
syncing) queues the payload; the ELSync path drops it when the ref
conversion fails or `ref.Number <= unsafeHead.Number`, and otherwise
inserts it directly into the engine. -/
def handleUnsafePayload (mode : SyncMode) (engineSyncing refOk : Bool)
    (refNumber unsafeHeadNumber : Nat) : PayloadAction :=
  if mode = SyncMode.clSync ∨ engineSyncing = false then
    PayloadAction.queueForCLSync
  else if mode = SyncMode.elSync then
    if refOk = false then PayloadAction.drop
    else if refNumber ≤ unsafeHeadNumber then PayloadAction.drop
    else PayloadAction.insertForELSync
  else PayloadAction.drop

/-- Claim C7: while the engine is EL-syncing in ELSync mode, an unsafe
payload whose block number is at most the current unsafe head's number
is discarded: neither inserted nor queued. -/
theorem C7_elsync_discards_stale_payload (n h : Nat) (hle : n ≤ h) :
    handleUnsafePayload SyncMode.elSync true true n h = PayloadAction.drop := by
  simp [handleUnsafePayload, hle]

/-- Witness for C7 at the boundary the claim singles out: a payload with
number equal to the unsafe head's number is discarded. -/
theorem C7_elsync_discards_stale_payload_witness :
    handleUnsafePayload SyncMode.elSync true true 7 7 = PayloadAction.drop :=
  C7_elsync_discards_stale_payload 7 7 (by decide)

/-- The uint64 modulus. -/
def U64 : Nat := 2 ^ 64

/-- Go uint64 subtraction `x - y` for x, y < 2^64, wrapping modulo 2^64. -/
def u64sub (x y : Nat) : Nat := (x + U64 - y) % U64

/-- Embeds the guard of `Driver.checkSyncUnsafeBlocks` (state.go:621):
`startBlock.NumberU64() < endBlock.NumberU64()-5` in Go uint64
arithmetic. `localNum` is the local (L2 geth) latest block number,
`elNum` the EL client's latest block number. The batch fetch-and-insert
path is taken exactly when this returns true. -/
def shouldSyncUnsafeBlocks (localNum elNum : Nat) : Bool :=
  decide (localNum < u64sub elNum 5)

/-- Claim C10: the EL-sync check attempts a catch-up batch iff
`localNum < elNum - 5` in unsigned 64-bit arithmetic; when the EL head
number is below 5 the subtraction wraps to `2^64 - (5 - elNum)`, so a
batch is attempted (for any realizable local head number) even when the
local head is not behind the EL head. -/
theorem C10_elsync_guard_wraps (localNum elNum : Nat)
    (hl : localNum < U64) (he : elNum < U64) :
    (shouldSyncUnsafeBlocks localNum elNum = true ↔ localNum < u64sub elNum 5) ∧
    (elNum < 5 → u64sub elNum 5 = U64 - (5 - elNum)) ∧
    (elNum < 5 → localNum + 6 ≤ U64 →
      shouldSyncUnsafeBlocks localNum elNum = true) := by
  simp only [U64] at *
  refine ⟨by simp [shouldSyncUnsafeBlocks], fun h5 => ?_, fun h5 hl5 => ?_⟩
  · have h : elNum + 2 ^ 64 - 5 < 2 ^ 64 := by omega
    simp only [u64sub, U64, Nat.mod_eq_of_lt h]
    omega
  · have h : elNum + 2 ^ 64 - 5 < 2 ^ 64 := by omega
    simp only [shouldSyncUnsafeBlocks, u64sub, U64, Nat.mod_eq_of_lt h,
      decide_eq_true_eq]
    omega

/-- Witness for C10 at local head 100, EL head 4: the guard wraps and a
sync batch is attempted although the local head is ahead of the EL head. -/
theorem C10_elsync_guard_wraps_witness :
    shouldSyncUnsafeBlocks 100 4 = true :=
  (C10_elsync_guard_wraps 100 4 (by decide) (by decide)).2.2 (by decide) (by decide)

/-- Go conversion uint64 → int64: two's-complement reinterpretation of a
value below 2^64. -/
def toInt64ofU64 (u : Nat) : Int :=
  if u < 2 ^ 63 then (u : Int) else (u : Int) - 2 ^ 64

/-- `(*big.Int).Uint64()`: the low 64 bits of the absolute value (the
defined result when 0 ≤ x < 2^64). -/
def bigUint64 (x : Int) : Nat := x.natAbs % 2 ^ 64

/-- Embeds `clamp(start, end, size)` (state.go:647-657). `endB` is the
Go parameter `end`. `count := (end - start).Uint64() + 1` in uint64
arithmetic; if `count <= size` the result is `end`, else
`start + int64(size-1)` where `size-1` is uint64 subtraction. big.Int
values are exact integers; `size` is a uint64 (so callers have
`size < 2^64`). -/
def clamp (start endB : Int) (size : Nat) : Int :=
  let count := (bigUint64 (endB - start) + 1) % 2 ^ 64
  if count ≤ size then endB
  else start + toInt64ofU64 ((size + 2 ^ 64 - 1) % 2 ^ 64)

/-- Claim C8, as stated, is false: at start 0, end 2^64 - 1, size 1 the
uint64 count `(end-start).Uint64() + 1` wraps to 0, so clamp returns
end = 2^64 - 1 instead of min(start + size - 1, end) = 0. -/
theorem C8_counterexample :
    (0 : Int) ≤ (2 ^ 64 - 1 : Int) ∧ (1 : Nat) ≥ 1 ∧
    clamp 0 (2 ^ 64 - 1) 1 ≠ min ((0 : Int) + (1 : Nat) - 1) (2 ^ 64 - 1) := by
  refine ⟨by norm_num, le_refl 1, ?_⟩
  have h1 : bigUint64 ((2 ^ 64 - 1 : Int) - 0) = 2 ^ 64 - 1 := by
    simp [bigUint64]
  have h2 : clamp 0 (2 ^ 64 - 1) 1 = (2 ^ 64 - 1 : Int) := by
    simp only [clamp, h1]
    norm_num
  rw [h2]
  norm_num

/-- Claim C8 (amended): for start ≤ end with end - start ≤ 2^64 - 2 (so
the uint64 block count does not wrap) and 1 ≤ size ≤ 2^63 (so
int64(size-1) does not go negative), clamp(start, end, size) =
min(start + size - 1, end); hence the returned batch end never covers
more than size blocks from start. -/
theorem C8_clamp_is_min (start endB : Int) (size : Nat)
    (hse : start ≤ endB) (h1 : 1 ≤ size) (h2 : size ≤ 2 ^ 63)
    (hd : endB - start ≤ 2 ^ 64 - 2) :
    clamp start endB size = min (start + size - 1) endB ∧
    clamp start endB size - start + 1 ≤ size := by
  have hnn : (0 : Int) ≤ endB - start := by omega
  have htn := Int.toNat_of_nonneg hnn
  have habs : (endB - start).natAbs = (endB - start).toNat := by
    have hna := Int.natAbs_of_nonneg hnn
    omega
  have hlt : (endB - start).toNat < 2 ^ 64 := by omega
  have hb : bigUint64 (endB - start) = (endB - start).toNat := by
    show (endB - start).natAbs % 2 ^ 64 = (endB - start).toNat
    rw [habs]
    exact Nat.mod_eq_of_lt hlt
  have hcount : (bigUint64 (endB - start) + 1) % 2 ^ 64 =
      (endB - start).toNat + 1 := by
    rw [hb]
    exact Nat.mod_eq_of_lt (by omega)
  have hsz1 : (size + 2 ^ 64 - 1) % 2 ^ 64 = size - 1 := by
    have : size + 2 ^ 64 - 1 = (size - 1) + 1 * 2 ^ 64 := by omega
    rw [this, Nat.add_mul_mod_self_right]
    exact Nat.mod_eq_of_lt (by omega)
  have hto : toInt64ofU64 (size - 1) = (size : Int) - 1 := by
    have hlt63 : size - 1 < 2 ^ 63 := by omega
    simp only [toInt64ofU64, if_pos hlt63]
    omega
  by_cases hcase : (endB - start).toNat + 1 ≤ size
  · have hcond : ((bigUint64 (endB - start) + 1) % 2 ^ 64 ≤ size) := by
      rw [hcount]; exact hcase
    have hres : clamp start endB size = endB := by
      simp only [clamp, if_pos hcond]
    have hle : endB ≤ start + size - 1 := by omega
    constructor
    · rw [hres]
      omega
    · rw [hres]
      omega
  · have hcond : ¬((bigUint64 (endB - start) + 1) % 2 ^ 64 ≤ size) := by
      rw [hcount]; exact hcase
    have hres : clamp start endB size = start + ((size : Int) - 1) := by
      simp only [clamp, if_neg hcond, hsz1, hto]
    have hgt : start + size - 1 < endB := by omega
    constructor
    · rw [hres]
      omega
    · rw [hres]
      omega

/-- Witness for C8_clamp_is_min: at start 0, end 10, size 3 the clamped
batch end is min(2, 10) = 2, covering 3 blocks. -/
theorem C8_clamp_is_min_witness :
    clamp 0 10 3 = min ((0 : Int) + (3 : Nat) - 1) 10 ∧
    clamp 0 10 3 - 0 + 1 ≤ (3 : Nat) :=
  C8_clamp_is_min 0 10 3 (by norm_num) (by norm_num) (by norm_num) (by norm_num)

/-- State touched by the `forceReset` case of `Driver.eventLoop`
(state.go:290-294): how many times `Derivation.Reset()` has run, how
many times `Metrics.RecordPipelineReset()` has been recorded, and which
response channels (numbered) have been closed. -/
structure ResetLoopState where
  pipelineResetCalls : Nat
  pipelineResetMetric : Nat
  closedChans : List Nat
deriving DecidableEq, Repr

/-- Embeds the `forceReset` case of `Driver.eventLoop` (state.go:290-294)
for one received response channel: the loop calls `Derivation.Reset()`,
records the pipeline-reset metric, and closes the channel. -/
def handleForceReset (st : ResetLoopState) (respCh : Nat) : ResetLoopState :=
  { pipelineResetCalls := st.pipelineResetCalls + 1
    pipelineResetMetric := st.pipelineResetMetric + 1
    closedChans := respCh :: st.closedChans }

/-- Which arm of a two-way Go `select` fires: the channel operation, or
`ctx.Done()`. -/
inductive SelectArm where
  | chanReady
  | ctxDone
deriving DecidableEq, Repr

/-- The caller-visible error when a context is cancelled. -/
inductive CtxError where
  | canceled
deriving DecidableEq, Repr

/-- Embeds `Driver.ResetDerivationPipeline` (state.go:482-495) as a
function of which arm each of its two selects takes. `sendArm` resolves
the outer select (send on `forceReset` versus `ctx.Done()`); `respArm`
resolves the inner select (receive on the response channel, which fires
once the loop closes it, versus `ctx.Done()`). -/
def resetDerivationPipeline (sendArm respArm : SelectArm) : Except CtxError Unit :=
  match sendArm with
  | SelectArm.ctxDone => Except.error CtxError.canceled
  | SelectArm.chanReady =>
    match respArm with
    | SelectArm.ctxDone => Except.error CtxError.canceled
    | SelectArm.chanReady => Except.ok ()

/-- Claim C2: servicing a force-reset request resets the pipeline,
records the pipeline-reset metric, and closes the caller's response
channel; ResetDerivationPipeline returns nil exactly when the
response-channel receive fires (the channel was closed by the loop),
and returns the context error when the caller's context wins either
select. -/
theorem C2_force_reset_protocol (st : ResetLoopState) (respCh : Nat)
    (sa ra : SelectArm) :
    (handleForceReset st respCh).pipelineResetCalls = st.pipelineResetCalls + 1 ∧
    (handleForceReset st respCh).pipelineResetMetric = st.pipelineResetMetric + 1 ∧
    respCh ∈ (handleForceReset st respCh).closedChans ∧
    (resetDerivationPipeline sa ra = Except.ok () ↔
      (sa = SelectArm.chanReady ∧ ra = SelectArm.chanReady)) ∧
    ((sa = SelectArm.ctxDone ∨ ra = SelectArm.ctxDone) →
      resetDerivationPipeline sa ra = Except.error CtxError.canceled) := by
  refine ⟨rfl, rfl, ?_, ?_, ?_⟩
  · simp [handleForceReset]
  · cases sa <;> cases ra <;> simp [resetDerivationPipeline]
  · cases sa <;> cases ra <;> simp [resetDerivationPipeline]

/-- Witness for C2_force_reset_protocol: a context cancelled during the
inner select yields the context error. -/
theorem C2_force_reset_protocol_witness :
    resetDerivationPipeline SelectArm.chanReady SelectArm.ctxDone =
      Except.error CtxError.canceled :=
  (C2_force_reset_protocol
      { pipelineResetCalls := 0, pipelineResetMetric := 0, closedChans := [] }
      0 SelectArm.chanReady SelectArm.ctxDone).2.2.2.2 (Or.inr rfl)

/-- Capacity of the `forceReset` channel:
`make(chan chan struct{}, 10)` in `NewDriver` (driver.go:235). -/
def forceResetCapacity : Nat := 10

/-- The buffered `forceReset` channel: FIFO buffer of queued response
channels. -/
structure ForceResetChannel where
  buffer : List Nat
deriving DecidableEq, Repr

/-- Buffered channel send on `forceReset`: completes (without blocking)
iff the buffer has room; the request is then appended. -/
def sendForceReset (ch : ForceResetChannel) (respCh : Nat) :
    Option ForceResetChannel :=
  if ch.buffer.length < forceResetCapacity then some ⟨ch.buffer ++ [respCh]⟩
  else none

/-- The driver loop servicing the whole `forceReset` buffer in FIFO
order, running the state.go:290-294 handler on each queued request. -/
def drainForceReset (ch : ForceResetChannel) (st : ResetLoopState) :
    ResetLoopState :=
  ch.buffer.foldl handleForceReset st

/-- Cancelling the caller's context after the send completed: the code
path `case <-ctx.Done(): return ctx.Err()` returns the error and does
not touch the channel buffer. -/
def cancelAfterSend (ch : ForceResetChannel) :
    ForceResetChannel × Except CtxError Unit :=
  (ch, Except.error CtxError.canceled)

/-- A response channel ends up closed after the loop drains the buffer
iff it was queued or already closed. -/
theorem closedChans_foldl_iff (l : List Nat) (st : ResetLoopState) (x : Nat) :
    x ∈ (l.foldl handleForceReset st).closedChans ↔
      x ∈ l ∨ x ∈ st.closedChans := by
  induction l generalizing st with
  | nil => simp
  | cons a t ih =>
    rw [List.foldl_cons, ih]
    simp only [handleForceReset, List.mem_cons]
    tauto

/-- Draining the buffer performs one pipeline reset per queued request. -/
theorem resetCalls_of_drain (l : List Nat) (st : ResetLoopState) :
    (l.foldl handleForceReset st).pipelineResetCalls =
      st.pipelineResetCalls + l.length := by
  induction l generalizing st with
  | nil => rfl
  | cons a t ih =>
    rw [List.foldl_cons, ih]
    simp [handleForceReset]
    omega

/-- Claim C9: the forceReset channel has capacity 10; once a caller's
request has been placed in its buffer, a subsequent context
cancellation returns the context error without withdrawing the request,
and the loop, when it drains the buffer, still resets the pipeline for
it and closes its response channel. -/
theorem C9_cancel_does_not_withdraw_reset (ch ch' : ForceResetChannel)
    (respCh : Nat) (st : ResetLoopState)
    (hsend : sendForceReset ch respCh = some ch') :
    forceResetCapacity = 10 ∧
    respCh ∈ ch'.buffer ∧
    cancelAfterSend ch' = (ch', Except.error CtxError.canceled) ∧
    respCh ∈ (drainForceReset ch' st).closedChans ∧
    (drainForceReset ch' st).pipelineResetCalls =
      st.pipelineResetCalls + ch'.buffer.length := by
  have hmem : respCh ∈ ch'.buffer := by
    simp only [sendForceReset] at hsend
    by_cases hroom : ch.buffer.length < forceResetCapacity
    · rw [if_pos hroom] at hsend
      cases hsend
      simp
    · rw [if_neg hroom] at hsend
      cases hsend
  exact ⟨rfl, hmem, rfl,
    (closedChans_foldl_iff ch'.buffer st respCh).mpr (Or.inl hmem),
    resetCalls_of_drain ch'.buffer st⟩

/-- Witness for C9 at a concrete channel state: sending into the empty
buffer succeeds, and the drained loop closes the response channel. -/
theorem C9_cancel_does_not_withdraw_reset_witness :
    forceResetCapacity = 10 ∧
    (3 : Nat) ∈ (⟨[3]⟩ : ForceResetChannel).buffer ∧
    cancelAfterSend ⟨[3]⟩ = (⟨[3]⟩, Except.error CtxError.canceled) ∧
    (3 : Nat) ∈ (drainForceReset ⟨[3]⟩ ⟨0, 0, []⟩).closedChans ∧
    (drainForceReset ⟨[3]⟩ ⟨0, 0, []⟩).pipelineResetCalls =
      (⟨0, 0, []⟩ : ResetLoopState).pipelineResetCalls +
        (⟨[3]⟩ : ForceResetChannel).buffer.length :=
  C9_cancel_does_not_withdraw_reset ⟨[]⟩ ⟨[3]⟩ 3 ⟨0, 0, []⟩ (by decide)

/-- Interactions performed by `Driver.BlockRefWithStatus`
(state.go:530-546). `sendStateReq` is the rendezvous on the unbuffered
`stateReq` channel (the send completes exactly when the loop receives,
i.e. acknowledges, the request); `releaseLoop` is the receive on the
wait channel, which unblocks the loop's `respCh <- struct{}{}` send at
state.go:289. -/
inductive BlockRefAccess where
  | readStatus
  | readBlockRef
  | sendStateReq
  | releaseLoop
deriving DecidableEq, Repr

/-- Embeds `Driver.BlockRefWithStatus` (state.go:530-546) as the ordered
trace of its interactions, branching on the status snapshot's finalized
local head number versus the requested number. The direct path reads
the snapshot and the block ref only; the blocking path sends the
one-shot state request, re-reads the status, reads the block ref, and
only then releases the loop. (The context-expiry arm of the select,
which returns `ctx.Err()` with no further interaction, is not taken
when the request is received.) -/
def blockRefWithStatusTrace (finalizedL2Number num : Nat) :
    List BlockRefAccess :=
  if finalizedL2Number ≥ num then
    [BlockRefAccess.readStatus, BlockRefAccess.readBlockRef]
  else
    [BlockRefAccess.readStatus, BlockRefAccess.sendStateReq,
     BlockRefAccess.readStatus, BlockRefAccess.readBlockRef,
     BlockRefAccess.releaseLoop]

/-- Claim C3: for n at or below the finalized local head number the
block ref is read directly, with no state request and no loop blocking;
for n above it, the call sends the one-shot state request (the
rendezvous with the loop's ack), reads the status and the block ref,
and releases the loop only after both reads. -/
theorem C3_block_ref_with_status (fin num : Nat) :
    (num ≤ fin →
      blockRefWithStatusTrace fin num =
        [BlockRefAccess.readStatus, BlockRefAccess.readBlockRef]) ∧
    (num ≤ fin →
      BlockRefAccess.sendStateReq ∉ blockRefWithStatusTrace fin num ∧
      BlockRefAccess.releaseLoop ∉ blockRefWithStatusTrace fin num) ∧
    (fin < num →
      blockRefWithStatusTrace fin num =
        [BlockRefAccess.readStatus, BlockRefAccess.sendStateReq,
         BlockRefAccess.readStatus, BlockRefAccess.readBlockRef,
         BlockRefAccess.releaseLoop]) ∧
    (fin < num →
      (blockRefWithStatusTrace fin num).getLast? = some BlockRefAccess.releaseLoop) := by
  refine ⟨fun h => ?_, fun h => ?_, fun h => ?_, fun h => ?_⟩
  · simp [blockRefWithStatusTrace, h]
  · simp [blockRefWithStatusTrace, h]
  · simp [blockRefWithStatusTrace, Nat.not_le.mpr h]
  · simp [blockRefWithStatusTrace, Nat.not_le.mpr h]

/-- Witness for C3_block_ref_with_status: with finalized head 5 and
request 3 the direct trace is taken. -/
theorem C3_block_ref_with_status_witness :
    blockRefWithStatusTrace 5 3 =
      [BlockRefAccess.readStatus, BlockRefAccess.readBlockRef] :=
  (C3_block_ref_with_status 5 3).1 (by decide)

/-- The external signals the event loop's select (state.go:242-297) can
wake on. The payload-specific data of the unsafe-payload signal does
not affect which bus events are emitted, so it is not carried here. -/
inductive LoopSignal where
  | sequencerDeadline
  | altSyncTick
  | unsafePayload
  | delayedStep
  | nextStep
  | stateRequest
  | forceResetRequest
deriving DecidableEq, Repr

/-- Embeds the bus emissions of the select body of `Driver.eventLoop`
(state.go:242-297), per received signal, given the sync mode and
`Engine.IsEngineSyncing()`. The sequencer deadline emits
SequencerActionEvent; both step timers emit StepAttemptEvent; an unsafe
payload on the CL path emits ReceivedUnsafePayloadEvent and then (via
`reqStep`) StepReqEvent, while the ELSync path inserts into the engine
directly without bus events; the alt-sync tick only issues alt-sync or
EL range requests; the state-request and force-reset cases perform
their work directly on channels, the pipeline and metrics. -/
def signalEvents (mode : SyncMode) (engineSyncing : Bool)
    (sig : LoopSignal) : List BusEvent :=
  match sig with
  | LoopSignal.sequencerDeadline => [BusEvent.sequencerAction]
  | LoopSignal.altSyncTick => []
  | LoopSignal.unsafePayload =>
    if mode = SyncMode.clSync ∨ engineSyncing = false then
      [BusEvent.receivedUnsafePayload, BusEvent.stepReq]
    else []
  | LoopSignal.delayedStep => [BusEvent.stepAttempt]
  | LoopSignal.nextStep => [BusEvent.stepAttempt]
  | LoopSignal.stateRequest => []
  | LoopSignal.forceResetRequest => []

/-- Claim C6, as stated, is false: waking on a state request emits no
event into the bus (the loop acks on the wait channel directly), not
exactly one. -/
theorem C6_counterexample :
    (signalEvents SyncMode.clSync false LoopSignal.stateRequest).length ≠ 1 := by
  decide

/-- Claim C6 (amended): per woken signal the loop emits exactly one
event for the sequencer deadline (SequencerActionEvent) and for each
scheduled-step timer (StepAttemptEvent); two events
(ReceivedUnsafePayloadEvent then StepReqEvent) for an unsafe payload on
the CL path; and no bus events for the alt-sync tick, a state request,
a force reset, or an unsafe payload on the EL-sync path. -/
theorem C6_signal_event_translation (mode : SyncMode) (es : Bool) :
    signalEvents mode es LoopSignal.sequencerDeadline = [BusEvent.sequencerAction] ∧
    signalEvents mode es LoopSignal.delayedStep = [BusEvent.stepAttempt] ∧
    signalEvents mode es LoopSignal.nextStep = [BusEvent.stepAttempt] ∧
    signalEvents mode es LoopSignal.altSyncTick = [] ∧
    signalEvents mode es LoopSignal.stateRequest = [] ∧
    signalEvents mode es LoopSignal.forceResetRequest = [] ∧
    ((mode = SyncMode.clSync ∨ es = false) →
      signalEvents mode es LoopSignal.unsafePayload =
        [BusEvent.receivedUnsafePayload, BusEvent.stepReq]) ∧
    (mode = SyncMode.elSync → es = true →
      signalEvents mode es LoopSignal.unsafePayload = []) := by
  cases mode <;> cases es <;> simp [signalEvents]

/-- Witness for C6_signal_event_translation: on the CL path an unsafe
payload is translated into the two events. -/
theorem C6_signal_event_translation_witness :
    signalEvents SyncMode.clSync false LoopSignal.unsafePayload =
      [BusEvent.receivedUnsafePayload, BusEvent.stepReq] :=
  (C6_signal_event_translation SyncMode.clSync false).2.2.2.2.2.2.1 (Or.inl rfl)
